import Mathlib

/- Verification development for the coffee equilibrium optimizer.

   This file is a shallow embedding, over exact real arithmetic, of
   src/crates/coffee/src/steihaug.rs (the CG-Steihaug trust-region
   subproblem solver) and src/crates/coffee/src/optimize.rs (the outer
   trust-region Newton engine).  f64 values are modelled as real numbers;
   the one place where the source explicitly tests for IEEE non-finite
   values (Steihaug::solve_curvature_quadratic) models the non-finite
   outcomes explicitly as the None result.  Vector dimensions, which the
   source checks with runtime asserts after construction-time validation,
   are carried in the types (Fin n).  Logging, timing and terminal output
   are side channels and are not modelled. -/

namespace Coffee

noncomputable section

/-- Dot product of two vectors, v.dot(w) on ndarray 1-d arrays. -/
def dotv {n : ℕ} (x y : Fin n → ℝ) : ℝ := ∑ i, x i * y i

/-- Euclidean norm as implemented by Steihaug::norm and Optimizer::norm:
    map each entry to its square, sum, then take the square root. -/
def normV {n : ℕ} (v : Fin n → ℝ) : ℝ := Real.sqrt (∑ i, v i * v i)

/-- Matrix-vector product A.dot(v) for a dense matrix. -/
def mulVec {m n : ℕ} (A : Fin m → Fin n → ℝ) (v : Fin n → ℝ) : Fin m → ℝ :=
  fun i => ∑ j, A i j * v j

/-- The state of the Steihaug solver (struct Steihaug in steihaug.rs).
    vector_size is the type index n. -/
@[ext]
structure Steihaug (n : ℕ) where
  curr_iterations : ℕ
  max_iterations : ℕ
  curr_zstep : Fin n → ℝ
  curr_rstep : Fin n → ℝ
  curr_dstep : Fin n → ℝ

/-- Steihaug::new. -/
def Steihaug.new (max_iterations vector_size : ℕ) : Steihaug vector_size :=
  ⟨0, max_iterations, fun _ => 0, fun _ => 0, fun _ => 0⟩

/-- Steihaug::solve_curvature_quadratic.  The source computes
    t = (-b + sqrt(b*b - 4*a*c)) / (2*a) in f64 and returns None when t is
    not finite.  Over exact reals, t is non-finite exactly when the division
    is by zero (a = 0 gives an infinity or NaN) or the square-root argument
    is negative (sqrt gives NaN); both cases are modelled as none. -/
def solve_curvature_quadratic {n : ℕ} (z d : Fin n → ℝ) (delta : ℝ) : Option ℝ :=
  let a := dotv d d
  let b := 2 * dotv z d
  let c := dotv z z - delta * delta
  if a = 0 ∨ b * b - 4 * a * c < 0 then none
  else some ((-b + Real.sqrt (b * b - 4 * a * c)) / (2 * a))

/-- Steihaug::early_update_zstep: on a real root tau, move z to z + tau * d;
    on failure report none (the source returns false). -/
def early_update_zstep {n : ℕ} (z d : Fin n → ℝ) (delta : ℝ) :
    Option (Fin n → ℝ) :=
  match solve_curvature_quadratic z d delta with
  | none => none
  | some tau => some (fun i => z i + tau * d i)

/-- Result of the inner CG for-loop of Steihaug::iterate: the final z, r, d
    buffers, whether the call succeeded, and whether the loop ran all
    vector_size passes without an early return (only that case increments
    the persistent iteration counter in the source). -/
structure CGResult (n : ℕ) where
  z : Fin n → ℝ
  r : Fin n → ℝ
  d : Fin n → ℝ
  status : Bool
  exhausted : Bool

/-- The inner for-loop of Steihaug::iterate (lines 148-174 of steihaug.rs),
    with the remaining pass count as fuel (the source iterates vector_size
    times). -/
def cg_loop {n : ℕ} (hessian : Fin n → Fin n → ℝ) (eps delta : ℝ) :
    ℕ → (Fin n → ℝ) → (Fin n → ℝ) → (Fin n → ℝ) → CGResult n
  | 0, z, r, d => ⟨z, r, d, true, true⟩
  | fuel + 1, z, r, d =>
    let hd := mulVec hessian d
    let curvature := dotv d hd
    let alpha := dotv r r / curvature
    let new_zstep := fun i => z i + alpha * d i
    if normV new_zstep ≥ delta then
      match early_update_zstep z d delta with
      | none => ⟨z, r, d, false, false⟩
      | some z2 => ⟨z2, r, d, true, false⟩
    else
      let new_rstep := fun i => r i + alpha * hd i
      if normV new_rstep < eps then ⟨new_zstep, r, d, true, false⟩
      else
        let beta := dotv new_rstep new_rstep / dotv r r
        cg_loop hessian eps delta fuel new_zstep new_rstep
          (fun i => beta * d i - new_rstep i)

/-- Steihaug::iterate.  Returns the success flag together with the updated
    solver state.  The call-count cap is checked first and fails without
    touching the state; otherwise z is reset to zero, r and d are loaded
    from the gradient, and the CG loop runs; the persistent counter is
    incremented only when the loop exhausts all n passes. -/
def Steihaug.iterate {n : ℕ} (s : Steihaug n) (gradient : Fin n → ℝ)
    (hessian : Fin n → Fin n → ℝ) (eps delta : ℝ) : Bool × Steihaug n :=
  if s.curr_iterations ≥ s.max_iterations then (false, s)
  else
    let z : Fin n → ℝ := fun _ => 0
    let r := gradient
    let d := fun i => -gradient i
    if normV r < eps then
      (true, { s with curr_zstep := z, curr_rstep := r, curr_dstep := d })
    else
      let res := cg_loop hessian eps delta n z r d
      if res.exhausted then
        (true, { s with curr_zstep := res.z, curr_rstep := res.r,
                        curr_dstep := res.d,
                        curr_iterations := s.curr_iterations + 1 })
      else
        (res.status, { s with curr_zstep := res.z, curr_rstep := res.r,
                              curr_dstep := res.d })

/-- Steihaug::get_result (an owned copy of the current z). -/
def Steihaug.get_result {n : ℕ} (s : Steihaug n) : Fin n → ℝ :=
  s.curr_zstep

/-- fn density_water in optimize.rs: the temperature correlation for the
    density of water, divided by the constant 18.0152. -/
def density_water (t : ℝ) : ℝ :=
  let a1 := -3.983035
  let a2 := 301.797
  let a3 := 522528.9
  let a4 := 69.34881
  let a5 := 999.974950
  a5 * (1 - (t + a1) * (t + a1) * (t + a2) / a3 / (t + a4)) / 18.0152

/-- const SMALLEST_EXP_VALUE in optimize.rs. -/
def smallest_exp_value : ℝ := -230

/-- The exponent argument used for each raw polymer energy x in
    Optimizer::new: (-x.max(SMALLEST_EXP_VALUE)) / k_t. -/
def exp_argument (k_t x : ℝ) : ℝ := -(max x smallest_exp_value) / k_t

/-- The stored (exponentiated) polymer energy weight for a raw energy x. -/
def polymer_weight (k_t x : ℝ) : ℝ := Real.exp (exp_argument k_t x)

/-- The immutable-after-construction part of struct Optimizer in
    optimize.rs: problem data and configuration.  M monomers, N polymers. -/
structure Params (M N : ℕ) where
  monomers : Fin M → ℝ
  polymers : Fin N → Fin M → ℝ
  polymers_q : Fin N → ℝ
  max_iterations : ℕ
  max_delta : ℝ
  eta : ℝ
  norm_ratio_threshold : ℝ
  rho_thresholds : ℝ × ℝ
  scale_factors : ℝ × ℝ
  scalarity : Bool
  temp_celsius : ℝ

/-- The mutable part of struct Optimizer: everything Optimizer::optimize
    and Optimizer::reset write.  The Steihaug sub-struct is carried whole
    (its max_iterations field is set at construction and never changed). -/
@[ext]
structure MutState (M N : ℕ) where
  curr_iteration : ℕ
  delta : ℝ
  optimal_lambda : Fin M → ℝ
  optimal_x : Fin N → ℝ
  optimal_lagrangian : ℝ
  steihaug : Steihaug M

/-- Optimizer::polymer_lambdas: exp(polymers . lambda), per polymer. -/
def polymer_lambdas {M N : ℕ} (p : Params M N) (lam : Fin M → ℝ) :
    Fin N → ℝ :=
  fun j => Real.exp (mulVec p.polymers lam j)

/-- Optimizer::lagrangian at a given lambda:
    ln(polymers_q . polymer_lambdas - lambda . monomers). -/
def lagrangian {M N : ℕ} (p : Params M N) (lam : Fin M → ℝ) : ℝ :=
  Real.log (dotv p.polymers_q (polymer_lambdas p lam) - dotv lam p.monomers)

/-- Optimizer::jacobian: (polymers^T . (polymers_q * pl) - monomers),
    divided by exp(lagrangian). -/
def jacobian {M N : ℕ} (p : Params M N) (pl : Fin N → ℝ) (lag : ℝ) :
    Fin M → ℝ :=
  fun i => ((∑ j, p.polymers j i * (p.polymers_q j * pl j)) - p.monomers i) /
    Real.exp lag

/-- Optimizer::hessian:
    (1/exp(lagrangian)) * polymers^T . (polymers * weights) - jac . jac^T. -/
def hessian {M N : ℕ} (p : Params M N) (pl : Fin N → ℝ) (lag : ℝ)
    (jac : Fin M → ℝ) : Fin M → Fin M → ℝ :=
  fun i k =>
    (1 / Real.exp lag) *
      (∑ j, p.polymers j i * (p.polymers_q j * pl j * p.polymers j k)) -
    jac i * jac k

/-- Line 296 of optimize.rs: epsilon = step.sqrt().min(0.5) * step, where
    step is the norm of the gradient. -/
def optimize_epsilon (step : ℝ) : ℝ := min (Real.sqrt step) 0.5 * step

/-- Modelled from the spec (claim C1): the tolerance formula the spec
    states, min(norm gradient, 0.5) * norm gradient, for comparison with
    the implemented optimize_epsilon. -/
def claimed_tolerance {n : ℕ} (g : Fin n → ℝ) : ℝ :=
  min (normV g) 0.5 * normV g

/-- Optimizer::update_optimal_x: x = polymers_q * polymer_lambdas,
    multiplied by density_water(temp_celsius) when scaling is enabled. -/
def update_optimal_x {M N : ℕ} (p : Params M N) (s : MutState M N) :
    MutState M N :=
  if p.scalarity then
    { s with optimal_x := fun j =>
        p.polymers_q j * polymer_lambdas p s.optimal_lambda j *
          density_water p.temp_celsius }
  else
    { s with optimal_x := fun j =>
        p.polymers_q j * polymer_lambdas p s.optimal_lambda j }

/-- The values computed by one pass of the outer loop of
    Optimizer::optimize (lines 287-301 of optimize.rs), as functions of the
    entry state: polymer weights at the current lambda. -/
def iter_pl {M N : ℕ} (p : Params M N) (s : MutState M N) : Fin N → ℝ :=
  polymer_lambdas p s.optimal_lambda

/-- The Lagrangian value computed at line 288. -/
def iter_lagrangian {M N : ℕ} (p : Params M N) (s : MutState M N) : ℝ :=
  lagrangian p s.optimal_lambda

/-- The gradient computed at line 291. -/
def iter_gradient {M N : ℕ} (p : Params M N) (s : MutState M N) :
    Fin M → ℝ :=
  jacobian p (iter_pl p s) (iter_lagrangian p s)

/-- The Hessian computed at line 292. -/
def iter_hessian {M N : ℕ} (p : Params M N) (s : MutState M N) :
    Fin M → Fin M → ℝ :=
  hessian p (iter_pl p s) (iter_lagrangian p s) (iter_gradient p s)

/-- The CG tolerance computed at lines 295-296. -/
def iter_epsilon {M N : ℕ} (p : Params M N) (s : MutState M N) : ℝ :=
  optimize_epsilon (normV (iter_gradient p s))

/-- The Steihaug call at lines 299-301. -/
def iter_solve {M N : ℕ} (p : Params M N) (s : MutState M N) :
    Bool × Steihaug M :=
  Steihaug.iterate s.steihaug (iter_gradient p s) (iter_hessian p s)
    (iter_epsilon p s) s.delta

/-- The step returned by the solver (line 319). -/
def iter_step {M N : ℕ} (p : Params M N) (s : MutState M N) : Fin M → ℝ :=
  (iter_solve p s).2.get_result

/-- The predicted reduction of the quadratic model (lines 326-327). -/
def iter_pred {M N : ℕ} (p : Params M N) (s : MutState M N) : ℝ :=
  -(dotv (iter_gradient p s) (iter_step p s) +
    0.5 * dotv (iter_step p s) (mulVec (iter_hessian p s) (iter_step p s)))

/-- The actual reduction (line 328). -/
def iter_actual {M N : ℕ} (p : Params M N) (s : MutState M N) : ℝ :=
  iter_lagrangian p s - lagrangian p (s.optimal_lambda + iter_step p s)

/-- The reduction ratio rho (lines 337-341): actual/predicted, or 0 when
    the predicted reduction is exactly zero. -/
def iter_rho {M N : ℕ} (p : Params M N) (s : MutState M N) : ℝ :=
  if iter_pred p s ≠ 0 then iter_actual p s / iter_pred p s else 0

/-- Outcome of one pass of the outer loop: solver failure (optimize returns
    an error), the zero-actual-reduction break, or a completed iteration. -/
inductive IterOutcome (M N : ℕ) where
  | fail (s : MutState M N)
  | broke (s : MutState M N)
  | cont (s : MutState M N)

/-- The state carried by an outcome. -/
def IterOutcome.state {M N : ℕ} : IterOutcome M N → MutState M N
  | .fail s => s
  | .broke s => s
  | .cont s => s

/-- Whether the outcome is a completed (non-break, non-failure) iteration. -/
def IterOutcome.isCont {M N : ℕ} : IterOutcome M N → Bool
  | .fail _ => false
  | .broke _ => false
  | .cont _ => true

/-- One pass of the outer loop of Optimizer::optimize
    (lines 287-367 of optimize.rs). -/
def optimizeIteration {M N : ℕ} (p : Params M N) (s : MutState M N) :
    IterOutcome M N :=
  let st2 := (iter_solve p s).2
  if (iter_solve p s).1 = false then
    .fail { s with optimal_lagrangian := iter_lagrangian p s, steihaug := st2 }
  else
    let update_step := iter_step p s
    let lam_new := s.optimal_lambda + update_step
    if iter_actual p s = 0 then
      .broke { s with optimal_lambda := lam_new,
                      optimal_lagrangian := lagrangian p lam_new,
                      steihaug := st2 }
    else
      let delta2 :=
        if iter_rho p s < p.rho_thresholds.1 then
          s.delta * p.scale_factors.1
        else if iter_rho p s > p.rho_thresholds.2 ∧
            normV update_step ≥ p.norm_ratio_threshold * s.delta then
          min p.max_delta (p.scale_factors.2 * s.delta)
        else s.delta
      let lam_final :=
        if iter_rho p s ≤ p.eta then lam_new - update_step else lam_new
      let lag_final :=
        if iter_rho p s ≤ p.eta then lagrangian p (lam_new - update_step)
        else lagrangian p lam_new
      .cont (update_optimal_x p
        { s with optimal_lambda := lam_final,
                 optimal_lagrangian := lag_final,
                 delta := delta2,
                 steihaug := st2,
                 curr_iteration := s.curr_iteration + 1 })

/-- Optimizer::reset: clears lambda, x, the Lagrangian and the iteration
    counter (the log and timer, not modelled, are also cleared there).
    Note that it does not touch the Steihaug sub-state. -/
def reset {M N : ℕ} (s : MutState M N) : MutState M N :=
  { s with curr_iteration := 0,
           optimal_lambda := fun _ => 0,
           optimal_x := fun _ => 0,
           optimal_lagrangian := 0 }

/-- The outer for-loop of Optimizer::optimize, with the remaining
    iteration count as fuel (the source runs max_iterations passes with
    break/return).  error carries the state at a solver failure. -/
def optimizeLoop {M N : ℕ} (p : Params M N) :
    ℕ → MutState M N → Except (MutState M N) (MutState M N)
  | 0, s => .ok s
  | fuel + 1, s =>
    match optimizeIteration p s with
    | .fail s2 => .error s2
    | .broke s2 => .ok s2
    | .cont s2 => optimizeLoop p fuel s2

/-- Optimizer::optimize: validates initial_delta, resets the mutable
    state, runs the outer loop, and updates x once more at the end.  The
    f64 validity test (initial_delta <= 0.0 or not finite) is, over exact
    reals, the test initial_delta <= 0. -/
def optimize {M N : ℕ} (p : Params M N) (s : MutState M N)
    (initial_delta : ℝ) : Except String Bool × MutState M N :=
  if initial_delta ≤ 0 then
    (.error ("Initial delta value is not valid."), s)
  else
    match optimizeLoop p p.max_iterations (reset { s with delta := initial_delta }) with
    | .error s2 => (.error ("The Steihaug optimization did not succeed"), s2)
    | .ok s2 => (.ok true, update_optimal_x p s2)

/-- The optional arguments of Optimizer::new (struct OptimizerArgs in
    extras.rs; the use_terminal and verbose flags only route logging and
    are not modelled). -/
structure OptimizerArgs where
  max_iterations : ℕ
  max_delta : ℝ
  eta : ℝ
  norm_ratio_threshold : ℝ
  rho_thresholds : ℝ × ℝ
  scale_factors : ℝ × ℝ
  scalarity : Bool
  temp_celsius : ℝ

/-- A dense 2-d array with its shape, as ndarray Array2 carries it: the
    row and column counts are part of the value (a 0 x m array keeps its
    column count). -/
structure Mat2 where
  rows : ℕ
  cols : ℕ
  entry : Fin rows → Fin cols → ℝ

/-- Optimizer::new (lines 76-152 of optimize.rs): the five validation
    checks in source order, then scaling of the monomer vector and
    exponentiation of the raw polymer energies with the clamp.  On success
    it returns the dimensions together with the constructed engine. -/
def Optimizer.new (monomers : List ℝ) (polymers : Mat2)
    (polymers_q_nonexp : List ℝ) (optional_args : OptimizerArgs) :
    Except String ((M : ℕ) × (N : ℕ) × Params M N × MutState M N) :=
  let num_monomers := monomers.length
  let num_polymers := polymers.rows
  if num_monomers = 0 then
    .error ("Monomers array is empty.")
  else if num_polymers = 0 then
    .error ("Polymers array is empty.")
  else if num_polymers < num_monomers then
    .error ("Number of polymers is less than number of monomers.")
  else if h1 : num_monomers ≠ polymers.cols then
    .error ("Monomers and polymer compositions inconsistent.")
  else if h2 : num_polymers ≠ polymers_q_nonexp.length then
    .error ("Polymers and polymer quantities have different sizes.")
  else
    let temp_celsius := optional_args.temp_celsius
    let scalarity := optional_args.scalarity
    let k_t := if scalarity then 0.00198717 * (temp_celsius + 273.15) else 1
    let scaled_monomers : Fin num_monomers → ℝ :=
      if scalarity then
        fun i => monomers.get i / density_water temp_celsius
      else fun i => monomers.get i
    let polymers_q : Fin num_polymers → ℝ :=
      fun j => polymer_weight k_t
        (polymers_q_nonexp.get (Fin.cast (of_not_not h2) j))
    .ok ⟨num_monomers, num_polymers,
      { monomers := scaled_monomers,
        polymers := fun j i => polymers.entry j (Fin.cast (of_not_not h1) i),
        polymers_q := polymers_q,
        max_iterations := optional_args.max_iterations,
        max_delta := optional_args.max_delta,
        eta := optional_args.eta,
        norm_ratio_threshold := optional_args.norm_ratio_threshold,
        rho_thresholds := optional_args.rho_thresholds,
        scale_factors := optional_args.scale_factors,
        scalarity := scalarity,
        temp_celsius := temp_celsius },
      { curr_iteration := 0,
        delta := 1,
        optimal_lambda := fun _ => 0,
        optimal_x := fun _ => 0,
        optimal_lagrangian := 0,
        steihaug := Steihaug.new optional_args.max_iterations num_monomers }⟩

/-- Whether an Except value is the ok case. -/
def isOkB {ε α : Type _} : Except ε α → Bool
  | .ok _ => true
  | .error _ => false

/-- Agreement of two mutable states on everything except the Steihaug
    scratch buffers z, r, d (which every non-failing solver call
    overwrites before reading). -/
def MutAgree {M N : ℕ} (s1 s2 : MutState M N) : Prop :=
  s1.curr_iteration = s2.curr_iteration ∧ s1.delta = s2.delta ∧
  s1.optimal_lambda = s2.optimal_lambda ∧ s1.optimal_x = s2.optimal_x ∧
  s1.optimal_lagrangian = s2.optimal_lagrangian ∧
  s1.steihaug.curr_iterations = s2.steihaug.curr_iterations ∧
  s1.steihaug.max_iterations = s2.steihaug.max_iterations

/-- Same outcome constructor with MutAgree payloads. -/
def IterAgree {M N : ℕ} : IterOutcome M N → IterOutcome M N → Prop
  | .fail a, .fail b => MutAgree a b
  | .broke a, .broke b => MutAgree a b
  | .cont a, .cont b => MutAgree a b
  | _, _ => False

/-- The state carried by either side of the outer-loop result. -/
def exceptState {M N : ℕ} :
    Except (MutState M N) (MutState M N) → MutState M N
  | .ok s => s
  | .error s => s

/-- Same Except constructor with MutAgree payloads. -/
def ExceptAgree {M N : ℕ} :
    Except (MutState M N) (MutState M N) →
    Except (MutState M N) (MutState M N) → Prop
  | .ok a, .ok b => MutAgree a b
  | .error a, .error b => MutAgree a b
  | _, _ => False

/-- Concrete fixture (one monomer of concentration 91/100, one polymer of
    stoichiometry 1 and raw weight 1): at lambda = 0 the gradient is
    (9/100). -/
def cexParamsA : Params (0 + 1) (0 + 1) :=
  ⟨fun _ => 91 / 100, fun _ _ => 1, fun _ => 1, 5, 1000, 0.15, 0.95,
    (0.25, 0.75), (0.25, 2), false, 37⟩

/-- Mutable-state fixture accompanying cexParamsA: lambda = 0, delta = 10. -/
def cexStateA : MutState (0 + 1) (0 + 1) :=
  ⟨0, 10, fun _ => 0, fun _ => 0, 0,
    ⟨0, 5, fun _ => 0, fun _ => 0, fun _ => 0⟩⟩

/-- Concrete fixture for a completed-and-rejected outer iteration: one
    monomer of concentration 1, one polymer of stoichiometry 2 and weight
    1; at lambda = 0 the gradient is (1) and the Hessian is (3); eta =
    1000 forces rejection of the step. -/
def wParamsB : Params (0 + 1) (0 + 1) :=
  ⟨fun _ => 1, fun _ _ => 2, fun _ => 1, 5, 1000000, 1000, 1,
    (-1000, 1000000), (1, 1), false, 37⟩

/-- Mutable-state fixture accompanying wParamsB: lambda = 0, delta = 10. -/
def wStateB : MutState (0 + 1) (0 + 1) :=
  ⟨0, 10, fun _ => 0, fun _ => 0, 0,
    ⟨0, 5, fun _ => 0, fun _ => 0, fun _ => 0⟩⟩

/-- Concrete fixture for the repeated-optimize counterexample: one monomer
    of concentration 0, one polymer of zero stoichiometry and weight 1,
    and a single outer iteration.  The gradient is identically zero, so
    every solver call exhausts its inner loop and advances the persistent
    counter, which reset does not clear. -/
def cexParamsC : Params (0 + 1) (0 + 1) :=
  ⟨fun _ => 0, fun _ _ => 0, fun _ => 1, 0 + 1, 1000, 0.15, 0.95,
    (0.25, 0.75), (0.25, 2), false, 37⟩

/-- Mutable-state fixture accompanying cexParamsC. -/
def cexStateC : MutState (0 + 1) (0 + 1) :=
  ⟨0, 1, fun _ => 0, fun _ => 0, 0,
    ⟨0, 0 + 1, fun _ => 0, fun _ => 0, fun _ => 0⟩⟩

/-- Concrete fixture for the repeated-optimize witness: max_iterations 0,
    so optimize performs no outer iteration and leaves the solver counter
    unchanged. -/
def wParamsD : Params (0 + 1) (0 + 1) :=
  ⟨fun _ => 1, fun _ _ => 1, fun _ => 1, 0, 1000, 0.15, 0.95,
    (0.25, 0.75), (0.25, 2), false, 37⟩

/-- Mutable-state fixture accompanying wParamsD. -/
def wStateD : MutState (0 + 1) (0 + 1) :=
  ⟨0, 1, fun _ => 0, fun _ => 0, 0,
    ⟨0, 0, fun _ => 0, fun _ => 0, fun _ => 0⟩⟩

/- ------------------------------------------------------------------ -/
/- Helper lemmas.                                                      -/
/- ------------------------------------------------------------------ -/

lemma dotv_self_nonneg {n : ℕ} (v : Fin n → ℝ) : 0 ≤ dotv v v :=
  Finset.sum_nonneg fun i _ => mul_self_nonneg (v i)

lemma normV_nonneg {n : ℕ} (v : Fin n → ℝ) : 0 ≤ normV v :=
  Real.sqrt_nonneg _

lemma normV_le_of_dotv_le {n : ℕ} {v : Fin n → ℝ} {δ : ℝ} (hδ : 0 ≤ δ)
    (h : dotv v v ≤ δ * δ) : normV v ≤ δ := by
  calc normV v = Real.sqrt (dotv v v) := rfl
    _ ≤ Real.sqrt (δ * δ) := Real.sqrt_le_sqrt h
    _ = δ := Real.sqrt_mul_self hδ

lemma dotv_lt_of_normV_lt {n : ℕ} {v : Fin n → ℝ} {δ : ℝ}
    (h : normV v < δ) : dotv v v < δ * δ := by
  have hδ : 0 < δ := lt_of_le_of_lt (normV_nonneg v) h
  have h2 := (Real.sqrt_lt' hδ).mp h
  calc dotv v v < δ ^ 2 := h2
    _ = δ * δ := sq δ

lemma normV_eq_of_dotv_eq {n : ℕ} {v : Fin n → ℝ} {δ : ℝ} (hδ : 0 ≤ δ)
    (h : dotv v v = δ * δ) : normV v = δ := by
  calc normV v = Real.sqrt (δ * δ) := by rw [normV, ← h]; rfl
    _ = δ := Real.sqrt_mul_self hδ

lemma dotv_add_mul_self {n : ℕ} (z d : Fin n → ℝ) (t : ℝ) :
    dotv (fun i => z i + t * d i) (fun i => z i + t * d i) =
      dotv z z + dotv z d * (2 * t) + dotv d d * (t * t) := by
  unfold dotv
  rw [Finset.sum_congr rfl fun i _ =>
    (by ring :
      (z i + t * d i) * (z i + t * d i) =
        z i * z i + z i * d i * (2 * t) + d i * d i * (t * t))]
  rw [Finset.sum_add_distrib, Finset.sum_add_distrib,
    ← Finset.sum_mul, ← Finset.sum_mul]

lemma quadratic_root (a b c : ℝ) (ha : a ≠ 0) (hd : 0 ≤ b * b - 4 * a * c) :
    a * (((-b + Real.sqrt (b * b - 4 * a * c)) / (2 * a)) *
        ((-b + Real.sqrt (b * b - 4 * a * c)) / (2 * a))) +
      b * ((-b + Real.sqrt (b * b - 4 * a * c)) / (2 * a)) + c = 0 := by
  have hs : Real.sqrt (b * b - 4 * a * c) * Real.sqrt (b * b - 4 * a * c) =
      b * b - 4 * a * c := Real.mul_self_sqrt hd
  field_simp
  nlinarith [hs]

lemma solve_some {n : ℕ} {z d : Fin n → ℝ} {δ t : ℝ}
    (h : solve_curvature_quadratic z d δ = some t) :
    dotv d d ≠ 0 ∧
    0 ≤ 2 * dotv z d * (2 * dotv z d) -
        4 * dotv d d * (dotv z z - δ * δ) ∧
    t = (-(2 * dotv z d) +
        Real.sqrt (2 * dotv z d * (2 * dotv z d) -
          4 * dotv d d * (dotv z z - δ * δ))) / (2 * dotv d d) := by
  simp only [solve_curvature_quadratic] at h
  split_ifs at h with hc
  push_neg at hc
  exact ⟨hc.1, hc.2, (Option.some.inj h).symm⟩

lemma early_update_dotv {n : ℕ} {z d : Fin n → ℝ} {δ : ℝ}
    {z2 : Fin n → ℝ} (h : early_update_zstep z d δ = some z2) :
    dotv z2 z2 = δ * δ := by
  unfold early_update_zstep at h
  cases he : solve_curvature_quadratic z d δ with
  | none => rw [he] at h; exact absurd h (by simp)
  | some t =>
    rw [he] at h
    obtain ⟨ha, hd, ht⟩ := solve_some he
    have hz2 : z2 = fun i => z i + t * d i := by
      simpa using h.symm
    have hq := quadratic_root (dotv d d) (2 * dotv z d)
      (dotv z z - δ * δ) ha hd
    rw [hz2, dotv_add_mul_self, ht]
    set u := (-(2 * dotv z d) +
      Real.sqrt (2 * dotv z d * (2 * dotv z d) -
        4 * dotv d d * (dotv z z - δ * δ))) / (2 * dotv d d) with hu
    nlinarith [hq]

lemma cg_loop_exhausted_status {n : ℕ} (H : Fin n → Fin n → ℝ)
    (eps δ : ℝ) (fuel : ℕ) :
    ∀ z r d : Fin n → ℝ,
      (cg_loop H eps δ fuel z r d).exhausted = true →
      (cg_loop H eps δ fuel z r d).status = true := by
  induction fuel with
  | zero => intro z r d _; rfl
  | succ k ih =>
    intro z r d hx
    simp only [cg_loop] at hx ⊢
    split_ifs at hx ⊢ with h1 h2
    · cases he : early_update_zstep z d δ with
      | none => rw [he] at hx; exact absurd hx (by simp)
      | some z2 => rfl
    · exact ih _ _ _ hx

lemma cg_loop_dotv {n : ℕ} (H : Fin n → Fin n → ℝ) (eps δ : ℝ)
    (fuel : ℕ) :
    ∀ z r d : Fin n → ℝ, dotv z z ≤ δ * δ →
      (cg_loop H eps δ fuel z r d).status = true →
      dotv (cg_loop H eps δ fuel z r d).z
        (cg_loop H eps δ fuel z r d).z ≤ δ * δ := by
  induction fuel with
  | zero => intro z r d hz _; exact hz
  | succ k ih =>
    intro z r d hz hst
    simp only [cg_loop] at hst ⊢
    split_ifs at hst ⊢ with h1 h2
    · cases he : early_update_zstep z d δ with
      | none => rw [he] at hst; exact absurd hst (by simp)
      | some z2 => exact le_of_eq (early_update_dotv he)
    · exact le_of_lt (dotv_lt_of_normV_lt (lt_of_not_ge h1))
    · exact ih _ _ _
        (le_of_lt (dotv_lt_of_normV_lt (lt_of_not_ge h1))) hst

lemma normV_zero_fun {n : ℕ} : normV (fun _ : Fin n => (0 : ℝ)) = 0 := by
  simp [normV]

lemma dotv_zero_fun {n : ℕ} :
    dotv (fun _ : Fin n => (0 : ℝ)) (fun _ : Fin n => (0 : ℝ)) = 0 := by
  simp [dotv]

lemma iterate_at_cap {n : ℕ} (s : Steihaug n) (gradient : Fin n → ℝ)
    (hessian : Fin n → Fin n → ℝ) (eps δ : ℝ)
    (h : s.curr_iterations ≥ s.max_iterations) :
    Steihaug.iterate s gradient hessian eps δ = (false, s) := by
  unfold Steihaug.iterate
  rw [if_pos h]

lemma iterate_max_pres {n : ℕ} (s : Steihaug n) (gradient : Fin n → ℝ)
    (hessian : Fin n → Fin n → ℝ) (eps δ : ℝ) :
    ((Steihaug.iterate s gradient hessian eps δ).2).max_iterations =
      s.max_iterations := by
  simp only [Steihaug.iterate]
  split_ifs <;> rfl

lemma update_optimal_x_lambda {M N : ℕ} (p : Params M N) (s : MutState M N) :
    (update_optimal_x p s).optimal_lambda = s.optimal_lambda := by
  unfold update_optimal_x
  split_ifs <;> rfl

lemma update_optimal_x_lagrangian {M N : ℕ} (p : Params M N)
    (s : MutState M N) :
    (update_optimal_x p s).optimal_lagrangian = s.optimal_lagrangian := by
  unfold update_optimal_x
  split_ifs <;> rfl

lemma update_optimal_x_delta {M N : ℕ} (p : Params M N) (s : MutState M N) :
    (update_optimal_x p s).delta = s.delta := by
  unfold update_optimal_x
  split_ifs <;> rfl

lemma update_optimal_x_curr_iteration {M N : ℕ} (p : Params M N)
    (s : MutState M N) :
    (update_optimal_x p s).curr_iteration = s.curr_iteration := by
  unfold update_optimal_x
  split_ifs <;> rfl

lemma update_optimal_x_steihaug {M N : ℕ} (p : Params M N)
    (s : MutState M N) :
    (update_optimal_x p s).steihaug = s.steihaug := by
  unfold update_optimal_x
  split_ifs <;> rfl

lemma update_optimal_x_x_congr {M N : ℕ} (p : Params M N)
    (s1 s2 : MutState M N) (h : s1.optimal_lambda = s2.optimal_lambda) :
    (update_optimal_x p s1).optimal_x = (update_optimal_x p s2).optimal_x := by
  unfold update_optimal_x
  split_ifs <;> simp [h]

lemma optimizeLoop_zero {M N : ℕ} (p : Params M N) (s : MutState M N) :
    optimizeLoop p 0 s = .ok s := rfl

lemma optimizeLoop_succ {M N : ℕ} (p : Params M N) (k : ℕ)
    (s : MutState M N) :
    optimizeLoop p (k + 1) s =
      match optimizeIteration p s with
      | .fail s2 => .error s2
      | .broke s2 => .ok s2
      | .cont s2 => optimizeLoop p k s2 := rfl

/- ------------------------------------------------------------------ -/
/- Claim theorems.                                                     -/
/- ------------------------------------------------------------------ -/

/-- C2: for every call to Steihaug::iterate that returns success, the
    Euclidean norm of the returned step z is at most delta (for a
    nonnegative radius): interior branches only commit candidate iterates
    whose norm is strictly below delta, and the boundary-exit branch sets
    z to a point whose norm equals delta exactly in exact arithmetic. -/
theorem steihaug_step_within_radius {n : ℕ} (s : Steihaug n)
    (gradient : Fin n → ℝ) (hessian : Fin n → Fin n → ℝ) (eps δ : ℝ)
    (hδ : 0 ≤ δ)
    (h : (Steihaug.iterate s gradient hessian eps δ).1 = true) :
    normV (Steihaug.iterate s gradient hessian eps δ).2.curr_zstep ≤ δ := by
  simp only [Steihaug.iterate] at h ⊢
  by_cases h1 : s.curr_iterations ≥ s.max_iterations
  · rw [if_pos h1] at h
    exact absurd h (by simp)
  · rw [if_neg h1] at h ⊢
    by_cases h2 : normV gradient < eps
    · rw [if_pos h2] at h ⊢
      have h0 : normV (fun _ : Fin n => (0 : ℝ)) = 0 := normV_zero_fun
      calc normV (fun _ : Fin n => (0 : ℝ)) = 0 := h0
        _ ≤ δ := hδ
    · rw [if_neg h2] at h ⊢
      have hdz : dotv (fun _ : Fin n => (0 : ℝ)) (fun _ : Fin n => (0 : ℝ)) ≤
          δ * δ := by
        rw [dotv_zero_fun]; exact mul_nonneg hδ hδ
      by_cases h3 : (cg_loop hessian eps δ n (fun _ => 0) gradient
          (fun i => -gradient i)).exhausted = true
      · rw [if_pos h3] at h ⊢
        exact normV_le_of_dotv_le hδ
          (cg_loop_dotv hessian eps δ n _ _ _ hdz
            (cg_loop_exhausted_status hessian eps δ n _ _ _ h3))
      · rw [if_neg h3] at h ⊢
        exact normV_le_of_dotv_le hδ (cg_loop_dotv hessian eps δ n _ _ _ hdz h)

/-- Witness for C2 at a concrete input: dimension 1, zero gradient,
    tolerance 1 and radius 1; the call succeeds and the returned step has
    norm 0, which is at most 1. -/
theorem steihaug_step_within_radius_wit :
    normV (Steihaug.iterate
      (⟨0, 5, fun _ => 0, fun _ => 0, fun _ => 0⟩ : Steihaug 1)
      (fun _ => 0) (fun _ _ => 0) 1 1).2.curr_zstep ≤ 1 :=
  steihaug_step_within_radius _ _ _ _ _ (by norm_num) (by
    simp only [Steihaug.iterate]
    rw [if_neg (by simp : ¬ (0 ≥ 5)), if_pos (by
      rw [normV_zero_fun]; norm_num)])

/-- C6 (amended): once the persistent iteration counter has reached the
    construction-time maximum, every call to Steihaug::iterate fails
    immediately, leaving the solver state unchanged. -/
theorem iterate_cap_fails_immediately {n : ℕ} (s : Steihaug n)
    (gradient : Fin n → ℝ) (hessian : Fin n → Fin n → ℝ) (eps δ : ℝ)
    (h : s.curr_iterations ≥ s.max_iterations) :
    Steihaug.iterate s gradient hessian eps δ = (false, s) :=
  iterate_at_cap s gradient hessian eps δ h

/-- Witness for the amended C6: a solver whose counter equals its cap
    fails immediately with its state unchanged. -/
theorem iterate_cap_fails_immediately_wit :
    Steihaug.iterate (⟨3, 3, fun _ => 0, fun _ => 0, fun _ => 0⟩ : Steihaug 1)
      (fun _ => 1) (fun _ _ => 1) 1 1 =
      (false, ⟨3, 3, fun _ => 0, fun _ => 0, fun _ => 0⟩) :=
  iterate_cap_fails_immediately _ _ _ _ _ (by norm_num)

/-- Counterexample to C6 as stated: a call to Steihaug::iterate that
    returns success without advancing the persistent counter (the source
    increments the counter only when the inner loop exhausts all
    vector_size passes; the early tolerance return, the boundary exit and
    interior convergence leave it untouched). -/
theorem iterate_without_counter_advance_cex :
    (Steihaug.iterate
      (⟨0, 5, fun _ => 0, fun _ => 0, fun _ => 0⟩ : Steihaug 1)
      (fun _ => 0) (fun _ _ => 0) 1 1).1 = true ∧
    (Steihaug.iterate
      (⟨0, 5, fun _ => 0, fun _ => 0, fun _ => 0⟩ : Steihaug 1)
      (fun _ => 0) (fun _ _ => 0) 1 1).2.curr_iterations = 0 := by
  simp only [Steihaug.iterate]
  rw [if_neg (by simp : ¬ (0 ≥ 5)), if_pos (by
    rw [normV_zero_fun]; norm_num)]
  exact ⟨rfl, rfl⟩

/-- C3 (amended): whenever the boundary-exit branch fires and succeeds
    (the scalar quadratic has a finite real root), the committed iterate
    lands exactly on the trust-region sphere: its norm equals delta in
    exact arithmetic. -/
theorem boundary_exit_norm_eq_delta {n : ℕ} (z d : Fin n → ℝ) (δ : ℝ)
    (z2 : Fin n → ℝ) (hδ : 0 ≤ δ)
    (h : early_update_zstep z d δ = some z2) :
    normV z2 = δ :=
  normV_eq_of_dotv_eq hδ (early_update_dotv h)

/-- Witness for the amended C3: from z = 0 and d = (1) with radius 1, the
    boundary exit commits the point (1), whose norm is exactly the radius. -/
theorem boundary_exit_norm_eq_delta_wit :
    normV (fun _ : Fin 1 => (1 : ℝ)) = 1 := by
  have h4 : Real.sqrt 4 = 2 := by
    rw [show (4 : ℝ) = 2 ^ 2 by norm_num,
      Real.sqrt_sq (by norm_num : (0 : ℝ) ≤ 2)]
  refine boundary_exit_norm_eq_delta (fun _ => 0) (fun _ => 1) 1 (fun _ => 1)
    (by norm_num) ?_
  have hs : solve_curvature_quadratic (fun _ : Fin 1 => (0 : ℝ))
      (fun _ => 1) 1 = some 1 := by
    unfold solve_curvature_quadratic
    simp only [dotv, Fin.sum_univ_one]
    norm_num [h4]
  unfold early_update_zstep
  rw [hs]
  refine congrArg some ?_
  funext i
  norm_num

/-- Counterexample to C3 as stated: in dimension one with gradient (1),
    Hessian (-1), tolerance 1/2 and radius 10, the curvature along the
    first search direction d = -gradient is negative, yet the call
    succeeds with the interior step (1) of norm 1, not a boundary step of
    norm 10: the source never tests the sign of the curvature, and the
    negative-curvature candidate z + alpha d (alpha = -1) stays interior
    and is committed. -/
theorem negative_curvature_interior_step_cex :
    dotv (fun _ : Fin (0 + 1) => -(1 : ℝ))
        (mulVec (fun _ _ => (-1 : ℝ) : Fin (0 + 1) → Fin (0 + 1) → ℝ)
          (fun _ => -(1 : ℝ))) < 0 ∧
    (Steihaug.iterate
      (⟨0, 5, fun _ => 0, fun _ => 0, fun _ => 0⟩ : Steihaug (0 + 1))
      (fun _ => 1) (fun _ _ => -1) (1 / 2) 10).1 = true ∧
    normV (Steihaug.iterate
      (⟨0, 5, fun _ => 0, fun _ => 0, fun _ => 0⟩ : Steihaug (0 + 1))
      (fun _ => 1) (fun _ _ => -1) (1 / 2) 10).2.curr_zstep = 1 ∧
    normV (Steihaug.iterate
      (⟨0, 5, fun _ => 0, fun _ => 0, fun _ => 0⟩ : Steihaug (0 + 1))
      (fun _ => 1) (fun _ _ => -1) (1 / 2) 10).2.curr_zstep ≠ 10 := by
  refine ⟨by norm_num [dotv, mulVec, Fin.sum_univ_succ], ?_, ?_, ?_⟩ <;>
    norm_num [Steihaug.iterate, cg_loop, early_update_zstep,
      solve_curvature_quadratic, normV, dotv, mulVec, Fin.sum_univ_succ,
      Real.sqrt_one, Real.sqrt_zero]

lemma cexA_gradient :
    iter_gradient cexParamsA cexStateA = fun _ => 9 / 100 := by
  unfold iter_gradient jacobian iter_pl iter_lagrangian lagrangian
    cexParamsA cexStateA
  funext i
  norm_num [polymer_lambdas, mulVec, dotv, Fin.sum_univ_succ,
    Real.exp_zero, Real.log_one]

lemma cexA_norm : normV (fun _ : Fin (0 + 1) => (9 : ℝ) / 100) = 9 / 100 := by
  unfold normV
  rw [show (∑ i : Fin (0 + 1),
      (fun _ : Fin (0 + 1) => (9 : ℝ) / 100) i *
        (fun _ : Fin (0 + 1) => (9 : ℝ) / 100) i) = (9 / 100) ^ 2 from by
    norm_num [Fin.sum_univ_succ]]
  exact Real.sqrt_sq (by norm_num)

/-- Counterexample to C1 as stated: at the concrete engine cexParamsA /
    cexStateA the gradient norm is 9/100, the tolerance the code passes
    to the solver (line 296: step.sqrt().min(0.5) * step) is 27/1000,
    while the formula the claim states, min(norm, 0.5) * norm, gives
    81/10000. -/
theorem cg_tolerance_formula_cex :
    iter_epsilon cexParamsA cexStateA ≠
      claimed_tolerance (iter_gradient cexParamsA cexStateA) := by
  have hs : Real.sqrt (9 / 100 : ℝ) = 3 / 10 := by
    rw [show (9 : ℝ) / 100 = (3 / 10) ^ 2 by norm_num]
    exact Real.sqrt_sq (by norm_num)
  unfold iter_epsilon claimed_tolerance optimize_epsilon
  rw [cexA_gradient, cexA_norm, hs,
    min_eq_left (by norm_num : (3 : ℝ) / 10 ≤ 0.5),
    min_eq_left (by norm_num : (9 : ℝ) / 100 ≤ 0.5)]
  norm_num

/-- C1 (amended): the residual tolerance passed to the trust-region
    subproblem solver at every outer iteration equals
    min(sqrt(norm gradient), 0.5) * norm gradient; in particular, in the
    small-gradient regime norm gradient <= 1/4 it equals
    sqrt(norm gradient) * norm gradient, the superlinear-convergence
    tolerance tying inner precision to outer progress. -/
theorem cg_tolerance_superlinear {M N : ℕ} (p : Params M N)
    (s : MutState M N) :
    iter_epsilon p s =
      min (Real.sqrt (normV (iter_gradient p s))) 0.5 *
        normV (iter_gradient p s) ∧
    (normV (iter_gradient p s) ≤ 1 / 4 →
      iter_epsilon p s =
        Real.sqrt (normV (iter_gradient p s)) * normV (iter_gradient p s)) := by
  refine ⟨rfl, fun h => ?_⟩
  have h2 : Real.sqrt (normV (iter_gradient p s)) ≤ 0.5 := by
    calc Real.sqrt (normV (iter_gradient p s)) ≤ Real.sqrt (1 / 4) :=
        Real.sqrt_le_sqrt h
      _ = 0.5 := by
        rw [show (1 : ℝ) / 4 = (1 / 2) ^ 2 by norm_num,
          Real.sqrt_sq (by norm_num : (0 : ℝ) ≤ 1 / 2)]
        norm_num
  unfold iter_epsilon optimize_epsilon
  rw [min_eq_left h2]

/-- Witness for the amended C1: at the concrete engine cexParamsA /
    cexStateA the gradient norm is 9/100 <= 1/4, so the tolerance is in
    the superlinear regime. -/
theorem cg_tolerance_superlinear_wit :
    iter_epsilon cexParamsA cexStateA =
      Real.sqrt (normV (iter_gradient cexParamsA cexStateA)) *
        normV (iter_gradient cexParamsA cexStateA) :=
  (cg_tolerance_superlinear cexParamsA cexStateA).2
    (by rw [cexA_gradient, cexA_norm]; norm_num)

/-- C10: at the end of every pass of the outer loop of Optimizer::optimize
    (solver failure, the zero-actual-reduction break, and completed
    iterations whether accepted or rejected), the stored
    optimal_lagrangian equals the Lagrangian evaluated at the stored
    optimal_lambda. -/
theorem lagrangian_consistency {M N : ℕ} (p : Params M N)
    (s : MutState M N) :
    ((optimizeIteration p s).state).optimal_lagrangian =
      lagrangian p ((optimizeIteration p s).state).optimal_lambda := by
  unfold optimizeIteration
  split_ifs <;>
    simp [IterOutcome.state, update_optimal_x_lagrangian,
      update_optimal_x_lambda, iter_lagrangian]

/-- C4: for every completed outer iteration whose step is rejected
    (rho <= eta), the dual variable at the end of the iteration equals
    its value at the start: the rollback lambda = (lambda + step) - step
    is exact over exact arithmetic. -/
theorem rejected_step_lambda_rollback {M N : ℕ} (p : Params M N)
    (s : MutState M N)
    (h1 : (optimizeIteration p s).isCont = true)
    (h2 : iter_rho p s ≤ p.eta) :
    ((optimizeIteration p s).state).optimal_lambda = s.optimal_lambda := by
  unfold optimizeIteration at h1 ⊢
  simp only [if_pos h2] at h1 ⊢
  split_ifs at h1 ⊢ <;>
    first
      | (simp [IterOutcome.isCont] at h1; done)
      | (simp [IterOutcome.state, update_optimal_x_lambda]; done)

/-- Counterexample to C7 as stated: for the raw polymer energy 100000
    (with k_t = 1, the unscaled case), the exponent argument passed to
    exp is -100000, far below -230: the source clamps the raw energy from
    below at -230 before scaling and negating, which bounds the exponent
    argument above, not below. -/
theorem exp_argument_below_floor_cex :
    exp_argument 1 100000 < -230 := by
  unfold exp_argument smallest_exp_value
  rw [max_eq_left (by norm_num : (-230 : ℝ) ≤ 100000)]
  norm_num

/-- C7 (amended): the raw polymer energy is clamped from below at -230
    before temperature scaling and negation, so for positive k_t the
    exponent argument is bounded above by 230 / k_t (no overflow to an
    infinite weight from very negative energies), and over exact
    arithmetic every stored weight is strictly positive. -/
theorem energy_clamp_bounds (x k_t : ℝ) (h : 0 < k_t) :
    exp_argument k_t x ≤ 230 / k_t ∧ 0 < polymer_weight k_t x := by
  constructor
  · unfold exp_argument smallest_exp_value
    have h1 : -(230 : ℝ) ≤ max x (-230) := le_max_right _ _
    have h2 : -(max x (-230)) ≤ 230 := by linarith
    exact (div_le_div_iff_of_pos_right h).mpr h2
  · exact Real.exp_pos _

/-- Witness for the amended C7 at the raw energy -500 with k_t = 1: the
    exponent argument is clamped to 230 and the weight is positive. -/
theorem energy_clamp_bounds_wit :
    exp_argument 1 (-500) ≤ 230 / 1 ∧ 0 < polymer_weight 1 (-500) :=
  energy_clamp_bounds (-500) 1 (by norm_num)

/-- Counterexample to C8 as stated: density_water(4) is not near 0.99995
    (it is about 55.507, since the source divides the density correlation
    by the constant 18.0152). -/
theorem density_water_gram_value_cex :
    ¬ |density_water 4 - 0.99995| < 1 / 10 := by
  unfold density_water
  rw [abs_sub_lt_iff]
  norm_num

/-- C8 (amended): density_water returns the IAPWS-style density
    correlation divided by 18.0152; at 4 degrees Celsius its value lies
    in (55.5, 55.51), and multiplying back by 18.0152 recovers a density
    of about 0.99997 g/cm3, within 1/10000 of the claimed physical
    maximum 0.99995; it is a pure function of the temperature alone. -/
theorem density_water_scaled_value :
    |density_water 4 * 18.0152 / 1000 - 0.99995| < 1 / 10000 ∧
    55.5 < density_water 4 ∧ density_water 4 < 55.51 := by
  refine ⟨?_, ?_, ?_⟩
  · unfold density_water
    rw [abs_sub_lt_iff]
    norm_num
  · unfold density_water
    norm_num
  · unfold density_water
    norm_num

/-- C5: Optimizer::new succeeds exactly when the monomer vector is
    nonempty, the polymer matrix has at least one row, the polymer count
    is not below the monomer count, the polymer matrix column count
    equals the monomer count, and the polymer energy vector length equals
    the polymer count; otherwise it returns a validation error and no
    engine is produced. -/
theorem optimizer_new_validation_iff (monomers : List ℝ) (polymers : Mat2)
    (polymers_q_nonexp : List ℝ) (optional_args : OptimizerArgs) :
    isOkB (Optimizer.new monomers polymers polymers_q_nonexp
      optional_args) = true ↔
      (monomers.length ≠ 0 ∧ polymers.rows ≠ 0 ∧
       ¬ polymers.rows < monomers.length ∧
       polymers.cols = monomers.length ∧
       polymers_q_nonexp.length = polymers.rows) := by
  simp only [Optimizer.new]
  split_ifs with h1 h2 h3 h4 h5
  · exact iff_of_false (by simp [isOkB]) (by omega)
  · exact iff_of_false (by simp [isOkB]) (by omega)
  · exact iff_of_false (by simp [isOkB]) (by omega)
  · exact iff_of_false (by simp [isOkB]) (by omega)
  · exact iff_of_false (by simp [isOkB]) (by omega)
  · exact iff_of_true rfl (by omega)
  · exact iff_of_true rfl (by omega)

lemma IterAgree_rfl {M N : ℕ} (o : IterOutcome M N) : IterAgree o o := by
  cases o <;> exact ⟨rfl, rfl, rfl, rfl, rfl, rfl, rfl⟩

lemma iterate_agree {n : ℕ} (t1 t2 : Steihaug n) (g : Fin n → ℝ)
    (H : Fin n → Fin n → ℝ) (e δ : ℝ)
    (hc : t1.curr_iterations = t2.curr_iterations)
    (hm : t1.max_iterations = t2.max_iterations) :
    (Steihaug.iterate t1 g H e δ).1 = (Steihaug.iterate t2 g H e δ).1 ∧
    (¬ t1.curr_iterations ≥ t1.max_iterations →
      (Steihaug.iterate t1 g H e δ).2 = (Steihaug.iterate t2 g H e δ).2) := by
  by_cases hcap : t1.curr_iterations ≥ t1.max_iterations
  · have hcap2 : t2.curr_iterations ≥ t2.max_iterations := by
      rw [← hc, ← hm]; exact hcap
    rw [iterate_at_cap t1 g H e δ hcap, iterate_at_cap t2 g H e δ hcap2]
    exact ⟨rfl, fun hn => absurd hcap hn⟩
  · have hcap2 : ¬ t2.curr_iterations ≥ t2.max_iterations := by
      rw [← hc, ← hm]; exact hcap
    simp only [Steihaug.iterate, if_neg hcap, if_neg hcap2]
    by_cases he : normV g < e
    · simp only [if_pos he]
      exact ⟨trivial, fun _ => by simp [Steihaug.mk.injEq, hc, hm]⟩
    · simp only [if_neg he]
      by_cases hx : (cg_loop H e δ n (fun _ => 0) g
          (fun i => -g i)).exhausted = true
      · simp only [if_pos hx]
        exact ⟨trivial, fun _ => by simp [Steihaug.mk.injEq, hc, hm]⟩
      · simp only [if_neg hx]
        exact ⟨trivial, fun _ => by simp [Steihaug.mk.injEq, hc, hm]⟩

lemma optimizeIteration_agree {M N : ℕ} (p : Params M N)
    (s1 s2 : MutState M N) (h : MutAgree s1 s2) :
    IterAgree (optimizeIteration p s1) (optimizeIteration p s2) := by
  obtain ⟨hit, hdel, hlam, hx, hlag, hsc, hsm⟩ := h
  have hpl : iter_pl p s1 = iter_pl p s2 := by unfold iter_pl; rw [hlam]
  have hil : iter_lagrangian p s1 = iter_lagrangian p s2 := by
    unfold iter_lagrangian; rw [hlam]
  have hg : iter_gradient p s1 = iter_gradient p s2 := by
    unfold iter_gradient; rw [hpl, hil]
  have hh : iter_hessian p s1 = iter_hessian p s2 := by
    unfold iter_hessian; rw [hpl, hil, hg]
  have he : iter_epsilon p s1 = iter_epsilon p s2 := by
    unfold iter_epsilon; rw [hg]
  have hs1 : iter_solve p s1 = Steihaug.iterate s1.steihaug
      (iter_gradient p s2) (iter_hessian p s2) (iter_epsilon p s2)
      s2.delta := by
    unfold iter_solve; rw [hg, hh, he, hdel]
  by_cases hcap : s1.steihaug.curr_iterations ≥ s1.steihaug.max_iterations
  · have hcap2 : s2.steihaug.curr_iterations ≥ s2.steihaug.max_iterations := by
      rw [← hsc, ← hsm]; exact hcap
    have e1 : iter_solve p s1 = (false, s1.steihaug) := by
      rw [hs1]; exact iterate_at_cap _ _ _ _ _ hcap
    have e2 : iter_solve p s2 = (false, s2.steihaug) :=
      iterate_at_cap _ _ _ _ _ hcap2
    have hbf1 : (iter_solve p s1).1 = false := by rw [e1]
    have hbf2 : (iter_solve p s2).1 = false := by rw [e2]
    unfold optimizeIteration
    rw [if_pos hbf1, if_pos hbf2]
    exact ⟨hit, hdel, hlam, hx, hil,
      by rw [e1, e2]; exact hsc, by rw [e1, e2]; exact hsm⟩
  · have hfull : iter_solve p s1 = iter_solve p s2 := by
      rw [hs1]
      show Steihaug.iterate s1.steihaug (iter_gradient p s2)
          (iter_hessian p s2) (iter_epsilon p s2) s2.delta =
        Steihaug.iterate s2.steihaug (iter_gradient p s2)
          (iter_hessian p s2) (iter_epsilon p s2) s2.delta
      have hpair := iterate_agree s1.steihaug s2.steihaug (iter_gradient p s2)
        (iter_hessian p s2) (iter_epsilon p s2) s2.delta hsc hsm
      exact Prod.ext hpair.1 (hpair.2 hcap)
    have hstep : iter_step p s1 = iter_step p s2 := by
      unfold iter_step; rw [hfull]
    have hact : iter_actual p s1 = iter_actual p s2 := by
      unfold iter_actual; rw [hil, hlam, hstep]
    have hpred : iter_pred p s1 = iter_pred p s2 := by
      unfold iter_pred; rw [hg, hh, hstep]
    have hrho : iter_rho p s1 = iter_rho p s2 := by
      unfold iter_rho; rw [hact, hpred]
    unfold optimizeIteration
    simp only [hfull, hstep, hact, hrho, hil, hlam, hdel, hit, hx]
    exact IterAgree_rfl _

lemma optimizeLoop_agree {M N : ℕ} (p : Params M N) (k : ℕ) :
    ∀ s1 s2 : MutState M N, MutAgree s1 s2 →
      ExceptAgree (optimizeLoop p k s1) (optimizeLoop p k s2) := by
  induction k with
  | zero => intro s1 s2 h; exact h
  | succ m ih =>
    intro s1 s2 h
    have hthis := optimizeIteration_agree p s1 s2 h
    rw [optimizeLoop_succ, optimizeLoop_succ]
    cases h1 : optimizeIteration p s1 <;> cases h2 : optimizeIteration p s2 <;>
      rw [h1, h2] at hthis <;>
      first
        | exact hthis
        | exact hthis.elim
        | exact ih _ _ hthis

lemma optimizeIteration_steihaug_max {M N : ℕ} (p : Params M N)
    (s : MutState M N) :
    ((optimizeIteration p s).state).steihaug.max_iterations =
      s.steihaug.max_iterations := by
  unfold optimizeIteration
  split_ifs <;>
    simp [IterOutcome.state, update_optimal_x_steihaug, iter_solve,
      iterate_max_pres]

lemma optimizeLoop_steihaug_max {M N : ℕ} (p : Params M N) (k : ℕ) :
    ∀ s : MutState M N,
      (exceptState (optimizeLoop p k s)).steihaug.max_iterations =
        s.steihaug.max_iterations := by
  induction k with
  | zero => intro s; rfl
  | succ m ih =>
    intro s
    rw [optimizeLoop_succ]
    cases h1 : optimizeIteration p s with
    | fail a =>
      have := optimizeIteration_steihaug_max p s
      rw [h1] at this
      exact this
    | broke a =>
      have := optimizeIteration_steihaug_max p s
      rw [h1] at this
      exact this
    | cont a =>
      have h2 := optimizeIteration_steihaug_max p s
      rw [h1] at h2
      calc (exceptState (optimizeLoop p m a)).steihaug.max_iterations =
          a.steihaug.max_iterations := ih a
        _ = s.steihaug.max_iterations := h2

lemma optimize_steihaug_max {M N : ℕ} (p : Params M N) (s : MutState M N)
    (d : ℝ) :
    ((optimize p s d).2).steihaug.max_iterations =
      s.steihaug.max_iterations := by
  unfold optimize
  split_ifs with hd
  · rfl
  · cases hL : optimizeLoop p p.max_iterations (reset { s with delta := d }) with
    | error a =>
      have := optimizeLoop_steihaug_max p p.max_iterations
        (reset { s with delta := d })
      rw [hL] at this
      exact this
    | ok a =>
      have h2 := optimizeLoop_steihaug_max p p.max_iterations
        (reset { s with delta := d })
      rw [hL] at h2
      simpa [update_optimal_x_steihaug] using h2

lemma optimize_agree {M N : ℕ} (p : Params M N) (s1 s2 : MutState M N)
    (d : ℝ) (hd : 0 < d)
    (hc : s1.steihaug.curr_iterations = s2.steihaug.curr_iterations)
    (hm : s1.steihaug.max_iterations = s2.steihaug.max_iterations) :
    (optimize p s1 d).1 = (optimize p s2 d).1 ∧
    ((optimize p s1 d).2).optimal_lambda =
      ((optimize p s2 d).2).optimal_lambda ∧
    ((optimize p s1 d).2).optimal_x = ((optimize p s2 d).2).optimal_x ∧
    ((optimize p s1 d).2).optimal_lagrangian =
      ((optimize p s2 d).2).optimal_lagrangian := by
  unfold optimize
  simp only [if_neg (not_le.mpr hd)]
  have hagree := optimizeLoop_agree p p.max_iterations
    (reset { s1 with delta := d }) (reset { s2 with delta := d })
    ⟨rfl, rfl, rfl, rfl, rfl, hc, hm⟩
  cases hL1 : optimizeLoop p p.max_iterations (reset { s1 with delta := d }) <;>
    cases hL2 : optimizeLoop p p.max_iterations (reset { s2 with delta := d }) <;>
    rw [hL1, hL2] at hagree
  · exact ⟨rfl, hagree.2.2.1, hagree.2.2.2.1, hagree.2.2.2.2.1⟩
  · exact hagree.elim
  · exact hagree.elim
  · refine ⟨rfl, ?_, ?_, ?_⟩
    · rw [update_optimal_x_lambda, update_optimal_x_lambda]
      exact hagree.2.2.1
    · exact update_optimal_x_x_congr p _ _ hagree.2.2.1
    · rw [update_optimal_x_lagrangian, update_optimal_x_lagrangian]
      exact hagree.2.2.2.2.1

/-- C9 (amended): calling optimize twice in succession on the same Engine
    with the same initial_delta produces identical results (the outcome
    and the optimal_lambda, optimal_x and optimal_lagrangian fields, hence
    also the derived concentration error) whenever the first call leaves
    the solver persistent iteration counter unchanged.  optimize does
    reset lambda, x, the Lagrangian, the iteration counter and the log at
    entry, but not the solver counter, which is the one piece of mutable
    state that can make a repeated call behave differently. -/
theorem optimize_repeat_same_counter {M N : ℕ} (p : Params M N)
    (s : MutState M N) (d : ℝ)
    (h : ((optimize p s d).2).steihaug.curr_iterations =
      s.steihaug.curr_iterations) :
    (optimize p ((optimize p s d).2) d).1 = (optimize p s d).1 ∧
    ((optimize p ((optimize p s d).2) d).2).optimal_lambda =
      ((optimize p s d).2).optimal_lambda ∧
    ((optimize p ((optimize p s d).2) d).2).optimal_x =
      ((optimize p s d).2).optimal_x ∧
    ((optimize p ((optimize p s d).2) d).2).optimal_lagrangian =
      ((optimize p s d).2).optimal_lagrangian := by
  by_cases hd : d ≤ 0
  · simp only [optimize, if_pos hd]
    exact ⟨trivial, trivial, trivial, trivial⟩
  · exact optimize_agree p ((optimize p s d).2) s d (not_le.mp hd) h
      (optimize_steihaug_max p s d)

/-- Witness for the amended C9: with max_iterations = 0 the outer loop
    never runs, the solver counter is untouched, and the two runs agree. -/
theorem optimize_repeat_same_counter_wit :
    (optimize wParamsD ((optimize wParamsD wStateD 1).2) 1).1 =
      (optimize wParamsD wStateD 1).1 ∧
    ((optimize wParamsD ((optimize wParamsD wStateD 1).2) 1).2).optimal_lambda =
      ((optimize wParamsD wStateD 1).2).optimal_lambda ∧
    ((optimize wParamsD ((optimize wParamsD wStateD 1).2) 1).2).optimal_x =
      ((optimize wParamsD wStateD 1).2).optimal_x ∧
    ((optimize wParamsD ((optimize wParamsD wStateD 1).2) 1).2).optimal_lagrangian =
      ((optimize wParamsD wStateD 1).2).optimal_lagrangian :=
  optimize_repeat_same_counter wParamsD wStateD 1 (by
    have hrun : optimize wParamsD wStateD 1 =
        (.ok true, update_optimal_x wParamsD (reset { wStateD with delta := 1 })) := by
      unfold optimize
      rw [if_neg (by norm_num : ¬ (1 : ℝ) ≤ 0)]
      rfl
    rw [hrun, update_optimal_x_steihaug]
    rfl)

lemma cg_loop_zero_gradient {n : ℕ} (H : Fin n → Fin n → ℝ) (δ : ℝ)
    (hδ : 0 < δ) (fuel : ℕ) :
    cg_loop H 0 δ fuel (fun _ => 0) (fun _ => 0) (fun _ => 0) =
      ⟨fun _ => 0, fun _ => 0, fun _ => 0, true, true⟩ := by
  induction fuel with
  | zero => rfl
  | succ k ih =>
    simp only [cg_loop, dotv_zero_fun, zero_div, div_zero, mul_zero,
      zero_mul, add_zero, zero_add, sub_zero, zero_sub, neg_zero,
      normV_zero_fun]
    rw [if_neg (not_le.mpr hδ), if_neg (lt_irrefl (0 : ℝ))]
    exact ih

lemma iterate_zero_gradient {n : ℕ} (s : Steihaug n)
    (H : Fin n → Fin n → ℝ) (δ : ℝ)
    (hcap : ¬ s.curr_iterations ≥ s.max_iterations) (hδ : 0 < δ) :
    Steihaug.iterate s (fun _ => 0) H 0 δ =
      (true, { s with curr_zstep := fun _ => 0, curr_rstep := fun _ => 0,
                      curr_dstep := fun _ => 0,
                      curr_iterations := s.curr_iterations + 1 }) := by
  simp only [Steihaug.iterate, neg_zero]
  rw [if_neg hcap,
    if_neg (by rw [normV_zero_fun]; exact lt_irrefl 0)]
  rw [cg_loop_zero_gradient H δ hδ n]
  rfl

lemma lagrangianC (lam : Fin (0 + 1) → ℝ) : lagrangian cexParamsC lam = 0 := by
  unfold lagrangian cexParamsC
  norm_num [polymer_lambdas, mulVec, dotv, Fin.sum_univ_succ,
    Real.exp_zero, Real.log_one]

lemma gradientC (s : MutState (0 + 1) (0 + 1)) :
    iter_gradient cexParamsC s = fun _ => 0 := by
  unfold iter_gradient jacobian
  funext i
  norm_num [cexParamsC, dotv, Fin.sum_univ_succ]

lemma hessianC (s : MutState (0 + 1) (0 + 1)) :
    iter_hessian cexParamsC s = fun _ _ => 0 := by
  unfold iter_hessian hessian
  rw [gradientC]
  funext i k
  norm_num [cexParamsC, Fin.sum_univ_succ]

lemma epsilonC (s : MutState (0 + 1) (0 + 1)) :
    iter_epsilon cexParamsC s = 0 := by
  unfold iter_epsilon optimize_epsilon
  rw [gradientC, normV_zero_fun, mul_zero]

lemma actualC (s : MutState (0 + 1) (0 + 1)) :
    iter_actual cexParamsC s = 0 := by
  unfold iter_actual iter_lagrangian
  rw [lagrangianC, lagrangianC]
  norm_num

lemma solveC (s : MutState (0 + 1) (0 + 1))
    (hcap : ¬ s.steihaug.curr_iterations ≥ s.steihaug.max_iterations)
    (hδ : 0 < s.delta) :
    iter_solve cexParamsC s =
      (true, { s.steihaug with curr_zstep := fun _ => 0,
                               curr_rstep := fun _ => 0,
                               curr_dstep := fun _ => 0,
                               curr_iterations :=
                                 s.steihaug.curr_iterations + 1 }) := by
  unfold iter_solve
  rw [gradientC, hessianC, epsilonC]
  exact iterate_zero_gradient s.steihaug _ s.delta hcap hδ

lemma iterationC_broke (s : MutState (0 + 1) (0 + 1))
    (hcap : ¬ s.steihaug.curr_iterations ≥ s.steihaug.max_iterations)
    (hδ : 0 < s.delta) :
    optimizeIteration cexParamsC s =
      .broke ({ s with
        optimal_lambda := s.optimal_lambda + iter_step cexParamsC s,
        optimal_lagrangian := 0,
        steihaug := ({ s.steihaug with
          curr_zstep := fun _ => 0,
          curr_rstep := fun _ => 0,
          curr_dstep := fun _ => 0,
          curr_iterations := s.steihaug.curr_iterations + 1 }) }) := by
  have hnot : ¬ ((iter_solve cexParamsC s).1 = false) := by
    rw [solveC s hcap hδ]
    simp
  simp only [optimizeIteration]
  rw [if_neg hnot, if_pos (actualC s), lagrangianC, solveC s hcap hδ]

lemma iterationC_fail (s : MutState (0 + 1) (0 + 1))
    (hcap : s.steihaug.curr_iterations ≥ s.steihaug.max_iterations) :
    optimizeIteration cexParamsC s =
      .fail { s with optimal_lagrangian := 0, steihaug := s.steihaug } := by
  have e1 : iter_solve cexParamsC s = (false, s.steihaug) :=
    iterate_at_cap _ _ _ _ _ hcap
  have hy : (iter_solve cexParamsC s).1 = false := by rw [e1]
  simp only [optimizeIteration]
  rw [if_pos hy, e1,
    show iter_lagrangian cexParamsC s = 0 from lagrangianC _]

/-- Counterexample to C9 as stated: on the concrete engine cexParamsC /
    cexStateC (gradient identically zero, one outer iteration, solver cap
    equal to the outer iteration budget), the first optimize call
    succeeds and its single solver call exhausts the inner loop,
    advancing the persistent counter to the cap; reset does not clear
    that counter, so the second identical call fails at the solver cap:
    the two calls do not produce the same success/failure outcome. -/
theorem optimize_repeat_differs_cex :
    (optimize cexParamsC cexStateC 1).1 = Except.ok true ∧
    (optimize cexParamsC ((optimize cexParamsC cexStateC 1).2) 1).1 =
      Except.error ("The Steihaug optimization did not succeed") := by
  have hrun1 : optimize cexParamsC cexStateC 1 =
      (.ok true, update_optimal_x cexParamsC
        ((optimizeIteration cexParamsC
          (reset { cexStateC with delta := 1 })).state)) := by
    unfold optimize
    rw [if_neg (by norm_num : ¬ (1 : ℝ) ≤ 0)]
    rw [show cexParamsC.max_iterations = 0 + 1 from rfl, optimizeLoop_succ]
    rw [iterationC_broke (reset { cexStateC with delta := 1 })
      (by decide) (by norm_num [reset])]
    rfl
  have hstC : ((optimize cexParamsC cexStateC 1).2).steihaug.curr_iterations
        = 0 + 1 ∧
      ((optimize cexParamsC cexStateC 1).2).steihaug.max_iterations
        = 0 + 1 := by
    rw [hrun1]
    show (update_optimal_x cexParamsC ((optimizeIteration cexParamsC
        (reset { cexStateC with delta := 1 })).state)).steihaug.curr_iterations
        = 0 + 1 ∧
      (update_optimal_x cexParamsC ((optimizeIteration cexParamsC
        (reset { cexStateC with delta := 1 })).state)).steihaug.max_iterations
        = 0 + 1
    rw [update_optimal_x_steihaug]
    rw [iterationC_broke (reset { cexStateC with delta := 1 })
      (by decide) (by norm_num [reset])]
    exact ⟨rfl, rfl⟩
  constructor
  · rw [hrun1]
  · set A := (optimize cexParamsC cexStateC 1).2 with hA
    have hcap2 : (reset { A with delta := 1 }).steihaug.curr_iterations ≥
        (reset { A with delta := 1 }).steihaug.max_iterations := by
      show A.steihaug.curr_iterations ≥ A.steihaug.max_iterations
      rw [hA, hstC.1, hstC.2]
    unfold optimize
    rw [if_neg (by norm_num : ¬ (1 : ℝ) ≤ 0)]
    rw [show cexParamsC.max_iterations = 0 + 1 from rfl, optimizeLoop_succ]
    rw [iterationC_fail (reset { A with delta := 1 }) hcap2]

lemma gradB : iter_gradient wParamsB wStateB = fun _ => 1 := by
  unfold iter_gradient jacobian iter_pl iter_lagrangian lagrangian
  funext i
  norm_num [wParamsB, wStateB, polymer_lambdas, mulVec, dotv,
    Fin.sum_univ_succ, Real.exp_zero, Real.log_one]

lemma hessB : iter_hessian wParamsB wStateB = fun _ _ => 3 := by
  unfold iter_hessian hessian
  rw [gradB]
  funext i k
  norm_num [wParamsB, wStateB, iter_pl, iter_lagrangian, lagrangian,
    polymer_lambdas, mulVec, dotv, Fin.sum_univ_succ, Real.exp_zero,
    Real.log_one]

lemma normV_one_fun : normV (fun _ : Fin (0 + 1) => (1 : ℝ)) = 1 := by
  unfold normV
  rw [show (∑ i : Fin (0 + 1),
      (fun _ : Fin (0 + 1) => (1 : ℝ)) i *
        (fun _ : Fin (0 + 1) => (1 : ℝ)) i) = 1 from by
    norm_num [Fin.sum_univ_succ]]
  exact Real.sqrt_one

lemma epsB : iter_epsilon wParamsB wStateB = 1 / 2 := by
  unfold iter_epsilon optimize_epsilon
  rw [gradB, normV_one_fun, Real.sqrt_one,
    min_eq_right (by norm_num : (0.5 : ℝ) ≤ 1)]
  norm_num

lemma lagB0 : iter_lagrangian wParamsB wStateB = 0 := by
  unfold iter_lagrangian lagrangian
  norm_num [wParamsB, wStateB, polymer_lambdas, mulVec, dotv,
    Fin.sum_univ_succ, Real.exp_zero, Real.log_one]

lemma sqrt_ninth : Real.sqrt (1 / 9 : ℝ) = 1 / 3 := by
  rw [show (1 : ℝ) / 9 = (1 / 3) ^ 2 by norm_num]
  exact Real.sqrt_sq (by norm_num)

lemma sqrt_nine : Real.sqrt (9 : ℝ) = 3 := by
  rw [show (9 : ℝ) = 3 ^ 2 by norm_num]
  exact Real.sqrt_sq (by norm_num)

lemma solveB_fst : (iter_solve wParamsB wStateB).1 = true := by
  unfold iter_solve
  rw [gradB, hessB, epsB, show wStateB.delta = 10 from rfl]
  norm_num [wStateB, Steihaug.iterate, cg_loop, normV, dotv, mulVec,
    Fin.sum_univ_succ, Real.sqrt_one, Real.sqrt_zero, sqrt_ninth, sqrt_nine]

lemma stepB : iter_step wParamsB wStateB = fun _ => -(1 / 3 : ℝ) := by
  funext i
  unfold iter_step Steihaug.get_result iter_solve
  rw [gradB, hessB, epsB, show wStateB.delta = 10 from rfl]
  norm_num [wStateB, Steihaug.iterate, cg_loop, normV, dotv, mulVec,
    Fin.sum_univ_succ, Real.sqrt_one, Real.sqrt_zero, sqrt_ninth, sqrt_nine]

lemma lagBnew :
    lagrangian wParamsB (wStateB.optimal_lambda + iter_step wParamsB wStateB) =
      Real.log (Real.exp (-(2 / 3 : ℝ)) + 1 / 3) := by
  rw [stepB]
  unfold lagrangian
  norm_num [wParamsB, wStateB, polymer_lambdas, mulVec, dotv,
    Fin.sum_univ_succ, Pi.add_apply]

lemma actB : iter_actual wParamsB wStateB =
    -Real.log (Real.exp (-(2 / 3 : ℝ)) + 1 / 3) := by
  unfold iter_actual
  rw [lagB0, lagBnew]
  ring

lemma logA_neg : Real.log (Real.exp (-(2 / 3 : ℝ)) + 1 / 3) < 0 := by
  have h32 : Real.log (3 / 2 : ℝ) < 2 / 3 := by
    have h := Real.log_lt_sub_one_of_pos
      (by norm_num : (0 : ℝ) < 3 / 2) (by norm_num)
    norm_num at h
    linarith
  have hexp : (3 / 2 : ℝ) < Real.exp (2 / 3) := by
    have h2 := Real.exp_lt_exp.mpr h32
    rwa [Real.exp_log (by norm_num : (0 : ℝ) < 3 / 2)] at h2
  have hsmall : Real.exp (-(2 / 3 : ℝ)) < 2 / 3 := by
    have h5 := inv_strictAnti₀ (by norm_num : (0 : ℝ) < 3 / 2) hexp
    rw [Real.exp_neg]
    norm_num at h5 ⊢
    linarith
  exact Real.log_neg (by positivity) (by linarith)

lemma logA_ge : (-2 : ℝ) ≤ Real.log (Real.exp (-(2 / 3 : ℝ)) + 1 / 3) := by
  have h3 : Real.exp (-2 : ℝ) ≤ 1 / 3 := by
    rw [Real.exp_neg, show (1 / 3 : ℝ) = ((3 : ℝ))⁻¹ by norm_num]
    refine inv_anti₀ (by norm_num) ?_
    have := Real.add_one_le_exp (2 : ℝ)
    linarith
  have h4 : Real.exp (-2 : ℝ) ≤ Real.exp (-(2 / 3 : ℝ)) + 1 / 3 := by
    have := Real.exp_pos (-(2 / 3 : ℝ))
    linarith
  calc (-2 : ℝ) = Real.log (Real.exp (-2 : ℝ)) := (Real.log_exp _).symm
    _ ≤ Real.log (Real.exp (-(2 / 3 : ℝ)) + 1 / 3) :=
        Real.log_le_log (Real.exp_pos _) h4

lemma predB : iter_pred wParamsB wStateB = 1 / 6 := by
  unfold iter_pred
  rw [gradB, hessB, stepB]
  norm_num [dotv, mulVec, Fin.sum_univ_succ]

lemma iterB_isCont : (optimizeIteration wParamsB wStateB).isCont = true := by
  have hnot1 : ¬ ((iter_solve wParamsB wStateB).1 = false) := by
    rw [solveB_fst]; simp
  have hnot2 : ¬ (iter_actual wParamsB wStateB = 0) := by
    rw [actB]
    intro h0
    have := logA_neg
    linarith
  simp only [optimizeIteration]
  rw [if_neg hnot1, if_neg hnot2]
  rfl

lemma rhoB_le : iter_rho wParamsB wStateB ≤ wParamsB.eta := by
  unfold iter_rho
  rw [if_pos (by rw [predB]; norm_num : iter_pred wParamsB wStateB ≠ 0)]
  rw [actB, predB, show wParamsB.eta = 1000 from rfl]
  rw [div_le_iff₀ (by norm_num : (0 : ℝ) < 1 / 6)]
  have := logA_ge
  linarith

/-- Witness for C4 at the concrete engine wParamsB / wStateB: the outer
    iteration completes, the step (-1/3) is rejected because rho is at
    most eta = 1000, and the dual variable is rolled back exactly to its
    entry value (the zero vector). -/
theorem rejected_step_lambda_rollback_wit :
    ((optimizeIteration wParamsB wStateB).state).optimal_lambda =
      wStateB.optimal_lambda :=
  rejected_step_lambda_rollback wParamsB wStateB iterB_isCont rhoB_le

end

end Coffee
